import Mathlib

/-!
Verification of the Percify avatar agent (`src/server.ts`).

This file is a shallow embedding of the agent's state-store operations
(`saveAvatarProfile`, `saveMemory`, `onStart`, `getAvatarState`), the
document matcher (`researchWeb` over `percifyDocs`), the context builder
(`buildContextString`, `getSystemPrompt`) and the worker fetch router,
together with theorems settling the specification's claims about them.

Modelling conventions:
* JavaScript strings are `String`, arrays are `List`, objects are
  structures, `undefined`-able values are `Option`.
* Effectful inputs of the TypeScript methods (fresh identifiers from
  `generateId()`, timestamps from `new Date()`, the schedule-prompt
  fragment from the external `agents/schedule` collaborator, and locale
  date rendering via `toLocaleDateString`) are passed as explicit
  parameters; `this.state` / `this.setState` become explicit state
  passing, so each method is a pure function of its state and inputs.
* JavaScript `||` on possibly-`undefined` strings is modelled faithfully,
  including its falsiness on the empty string (`jsOrS` below).
* `toLowerCase()` and `split(/\s+/)` are modelled by structural
  recursion over the character list (`strToLower`, `splitWs`); the
  splitter differs from the regex only in producing extra empty
  fragments between consecutive whitespace characters, which the
  `length > 2` filter in the scorer discards, so scoring is unaffected.
-/

namespace Percify

/-- The four tone literals of `AvatarProfile.tone` (`server.ts` line 29). -/
inductive Tone where
  | casual
  | professional
  | playful
  | technical
deriving DecidableEq

/-- The string value of a tone literal, as it appears in the TypeScript union. -/
def toneStr : Tone → String
  | .casual => "casual"
  | .professional => "professional"
  | .playful => "playful"
  | .technical => "technical"

/-- `AvatarProfile` (`server.ts` lines 25-31). -/
structure AvatarProfile where
  id : String
  displayName : String
  bio : String
  tone : Tone
  expertiseTags : List String
deriving DecidableEq

/-- The three memory type literals of `MemoryItem.type` (`server.ts` line 39). -/
inductive MemoryType where
  | task
  | preference
  | note
deriving DecidableEq

/-- The string value of a memory type literal. -/
def memTypeStr : MemoryType → String
  | .task => "task"
  | .preference => "preference"
  | .note => "note"

/-- `MemoryItem` (`server.ts` lines 36-41). -/
structure MemoryItem where
  id : String
  createdAt : String
  type : MemoryType
  content : String
deriving DecidableEq

/-- `AgentState` (`server.ts` lines 46-49). -/
structure AgentState where
  avatar : Option AvatarProfile
  memories : List MemoryItem
deriving DecidableEq

/-! ## State store: `saveMemory` (`server.ts` lines 138-163) -/

/-- `saveMemory(type, content)`.  The fresh identifier (`generateId()`) and
timestamp (`new Date().toISOString()`) are passed in as parameters.  Appends
the new item, trims to the last 50 (`slice(-50)`, modelled as
`drop (length - 50)`) when the cap is exceeded, stores the result, and
returns the last 5 items (`slice(-5)`). -/
def saveMemory (s : AgentState) (freshId createdAt : String)
    (ty : MemoryType) (content : String) : List MemoryItem × AgentState :=
  let newMemory : MemoryItem := { id := freshId, createdAt := createdAt, type := ty, content := content }
  let updated0 := s.memories ++ [newMemory]
  let updatedMemories := if updated0.length > 50 then updated0.drop (updated0.length - 50) else updated0
  (updatedMemories.drop (updatedMemories.length - 5), { s with memories := updatedMemories })

/-! ## State store: `saveAvatarProfile` (`server.ts` lines 114-133) -/

/-- JavaScript `x || fallback` where `x : string | undefined`: `undefined`
and the empty string are falsy, every other string is truthy. -/
def jsOrS (x : Option String) (fallback : String) : String :=
  match x with
  | some s => if s = "" then fallback else s
  | none => fallback

/-- `Partial<AvatarProfile>` as accepted by `saveAvatarProfile`
(`id` is never taken from the input). -/
structure ProfileInput where
  displayName : Option String := none
  bio : Option String := none
  tone : Option Tone := none
  expertiseTags : Option (List String) := none
deriving DecidableEq

/-- `saveAvatarProfile(profileInput)` with the fresh identifier
(`generateId()`) passed as a parameter.  Every field is merged with the
JavaScript `||` chains of the source:
`currentAvatar?.id || generateId()`,
`profileInput.displayName || currentAvatar?.displayName || "Unnamed Avatar"`,
`profileInput.bio || currentAvatar?.bio || ""`,
`profileInput.tone || currentAvatar?.tone || "casual"` (the four tone
literals are non-empty strings, hence truthy, so this chain is an
`undefined`-check only), and
`profileInput.expertiseTags || currentAvatar?.expertiseTags || []`
(arrays, including `[]`, are truthy in JavaScript, so this too is an
`undefined`-check only). -/
def saveAvatarProfile (s : AgentState) (input : ProfileInput) (freshId : String) :
    AvatarProfile × AgentState :=
  let currentAvatar := s.avatar
  let updatedAvatar : AvatarProfile := {
    id := jsOrS (currentAvatar.map (fun a => a.id)) freshId
    displayName := jsOrS input.displayName (jsOrS (currentAvatar.map (fun a => a.displayName)) "Unnamed Avatar")
    bio := jsOrS input.bio (jsOrS (currentAvatar.map (fun a => a.bio)) "")
    tone := match input.tone with
      | some t => t
      | none => match currentAvatar with
        | some a => a.tone
        | none => Tone.casual
    expertiseTags := match input.expertiseTags with
      | some l => l
      | none => match currentAvatar with
        | some a => a.expertiseTags
        | none => [] }
  (updatedAvatar, { s with avatar := some updatedAvatar })

/-! ## State store: `onStart` (`server.ts` lines 79-99) -/

/-- The persisted `memories` slot before validation: either a genuine
array or some non-array value (`Array.isArray` fails). -/
inductive RawMemories where
  | arr (items : List MemoryItem)
  | notArray
deriving DecidableEq

/-- The persisted state slot before validation: a falsy value
(`null`/`undefined`/other falsy primitives), a truthy non-object
(`typeof !== "object"`), or an object with an optional avatar and a raw
memories slot. -/
inductive RawState where
  | nullish
  | nonObject
  | obj (avatar : Option AvatarProfile) (memories : RawMemories)
deriving DecidableEq

/-- State after the startup check: a well-formed `AgentState` shape. -/
structure CheckedState where
  avatar : Option AvatarProfile
  memories : List MemoryItem
deriving DecidableEq

/-- First `onStart` check: `if (!this.state || typeof this.state !== "object")`
replace the whole slot with `{avatar: undefined, memories: []}`. -/
def onStartCheck1 : RawState → Option AvatarProfile × RawMemories
  | .nullish => (none, .arr [])
  | .nonObject => (none, .arr [])
  | .obj a m => (a, m)

/-- `onStart()`: the first check re-initialises a missing/non-object slot;
the second check (`if (!Array.isArray(this.state.memories))`) resets only
`memories`, spreading the rest of the state (`...this.state`). -/
def onStart (r : RawState) : CheckedState :=
  let am := onStartCheck1 r
  match am.2 with
  | .arr ms => { avatar := am.1, memories := ms }
  | .notArray => { avatar := am.1, memories := [] }

/-! ## `getAvatarState` (`server.ts` lines 104-109) -/

/-- `getAvatarState()`: reads the state, returning the avatar unchanged and
the last 5 memories (`slice(-5)`).  The method calls no `setState`, so the
agent state is passed through unchanged (second component). -/
def getAvatarState (s : AgentState) : AgentState × AgentState :=
  ({ avatar := s.avatar, memories := s.memories.drop (s.memories.length - 5) }, s)

/-! ## Document index and matcher (`server.ts` lines 169-272)

String helpers translating the JavaScript primitives used by the matcher:
`String.prototype.includes`, `String.prototype.toLowerCase` (ASCII case
folding, which covers the catalog and coincides with the engine's
behaviour on ASCII input) and `String.prototype.split(/\s+/)`.  All are
structural recursions so that concrete queries evaluate by `rfl`/`decide`. -/

/-- `isPrefixList pat s`: does `s` start with `pat`? -/
def isPrefixList : List Char → List Char → Bool
  | [], _ => true
  | _ :: _, [] => false
  | a :: as, b :: bs => a == b && isPrefixList as bs

/-- `containsSub s pat`: does `s` contain `pat` as a contiguous substring?
(JavaScript `s.includes(pat)`; every string contains the empty string.) -/
def containsSub : List Char → List Char → Bool
  | [], pat => pat.isEmpty
  | s@(_ :: t), pat => isPrefixList pat s || containsSub t pat

/-- JavaScript `s.includes(pat)`. -/
def strIncludes (s pat : String) : Bool := containsSub s.data pat.data

/-- JavaScript `s.toLowerCase()`. -/
def strToLower (s : String) : String := String.mk (s.data.map Char.toLower)

/-- Accumulator-passing splitter over the character list. -/
def splitWsChars : List Char → List Char → List String
  | [], acc => [String.mk acc.reverse]
  | c :: rest, acc =>
    if c.isWhitespace then String.mk acc.reverse :: splitWsChars rest []
    else splitWsChars rest (c :: acc)

/-- JavaScript `s.split(/\s+/)`, up to extra empty fragments between
consecutive whitespace characters (discarded by the scorer's
`length > 2` filter). -/
def splitWs (s : String) : List String := splitWsChars s.data []

/-- One entry of the `percifyDocs` catalog (`server.ts` lines 169-220):
`{title, content, path}`; the key is carried alongside in the catalog list. -/
structure DocEntry where
  title : String
  content : String
  path : String
deriving DecidableEq

/-- `percifyDocs.avatar`. -/
def avatarDoc : DocEntry :=
  { title := "Avatar Setup Guide"
    content := "Percify Avatar Co-Pilot lets you create a personalized AI persona. Your avatar includes: displayName (your preferred name), bio (a short description), tone (casual/professional/playful/technical), and expertiseTags (your areas of expertise). Use the command \x27create my avatar as [name]\x27 or \x27set my tone to professional\x27 to customize your experience. Avatars persist across sessions using Cloudflare Durable Objects."
    path := "/docs/avatar-guide" }

/-- `percifyDocs.memory`. -/
def memoryDoc : DocEntry :=
  { title := "Memory System"
    content := "Percify stores three types of memories: tasks (things to do), preferences (your likes/settings), and notes (general information). Say \x27remember that I prefer dark mode\x27 or \x27note: meeting at 3pm\x27. Memories are stored persistently and limited to 50 items with automatic cleanup of oldest entries. Access recent memories anytime - they\x27re included in your avatar context."
    path := "/docs/memory-system" }

/-- `percifyDocs.tone`. -/
def toneDoc : DocEntry :=
  { title := "Tone Customization"
    content := "Choose from 4 tone styles: CASUAL (friendly, relaxed, conversational), PROFESSIONAL (formal, precise, business-like), PLAYFUL (fun, energetic, humorous), TECHNICAL (detailed, accurate, uses technical terms). Change anytime with \x27set my tone to [style]\x27. Your tone affects how Percify responds to all your messages."
    path := "/docs/customization/tone" }

/-- `percifyDocs.tools`. -/
def toolsDoc : DocEntry :=
  { title := "Available Tools"
    content := "Percify has 4 core tools: 1) saveAvatarProfile - Create/update your avatar (name, bio, tone, expertise). 2) saveMemory - Store preferences, tasks, or notes. 3) researchWeb - Look up information from Percify docs. 4) getAvatarState - View current avatar and recent memories. Plus scheduling tools for reminders and recurring tasks."
    path := "/docs/tools-reference" }

/-- `percifyDocs.schedule`. -/
def scheduleDoc : DocEntry :=
  { title := "Scheduling & Reminders"
    content := "Schedule tasks with natural language: \x27remind me in 1 hour to check email\x27 or \x27schedule daily standup at 9am\x27. Percify uses Cloudflare\x27s scheduling system for reliable task execution. View scheduled tasks with \x27show my schedules\x27 and cancel with \x27cancel schedule [id]\x27."
    path := "/docs/scheduling" }

/-- `percifyDocs.getting_started` — also the fallback entry. -/
def gettingStartedDoc : DocEntry :=
  { title := "Getting Started"
    content := "Welcome to Percify! Start by creating your avatar: tell me your name and preferred tone. Then save some preferences so I remember your style. Try: \x271) Create avatar named Alex with professional tone, 2) Remember I prefer TypeScript, 3) Research how memory works\x27. Your data persists across sessions!"
    path := "/docs/getting-started" }

/-- `percifyDocs.architecture`. -/
def architectureDoc : DocEntry :=
  { title := "Technical Architecture"
    content := "Percify runs on Cloudflare\x27s edge network using: Workers AI (Llama 3.3 70B model for inference), Durable Objects (persistent state storage), WebSockets (real-time chat), and the Agents SDK (orchestration). State is stored in SQLite within Durable Objects for low-latency global access."
    path := "/docs/architecture" }

/-- `percifyDocs.api`. -/
def apiDoc : DocEntry :=
  { title := "API Reference"
    content := "REST Endpoints: GET /api/avatar-state returns current avatar and last 5 memories. GET /check-open-ai-key returns provider status. WebSocket connects at /chat for real-time messaging. All endpoints return JSON. Authentication is handled per-session via Durable Object IDs."
    path := "/docs/api-reference" }

/-- `percifyDocs.expertise`. -/
def expertiseDoc : DocEntry :=
  { title := "Expertise Tags"
    content := "Add expertise tags to your avatar to help Percify understand your background. Examples: \x27TypeScript\x27, \x27React\x27, \x27DevOps\x27, \x27Machine Learning\x27. Set with \x27my expertise is [tag1], [tag2], [tag3]\x27. Tags help contextualize responses and can be used for personalized recommendations."
    path := "/docs/customization/expertise" }

/-- `percifyDocs.troubleshooting`. -/
def troubleshootingDoc : DocEntry :=
  { title := "Troubleshooting"
    content := "Common issues: 1) Avatar not saving? Ensure you provide at least a name. 2) Memories full? Oldest are auto-deleted after 50 items. 3) Slow responses? Check network connection. 4) Wrong tone? Say \x27change tone to [style]\x27. 5) Reset everything? Say \x27reset my avatar\x27 to start fresh."
    path := "/docs/troubleshooting" }

/-- The `percifyDocs` catalog in `Object.entries` (insertion) order. -/
def percifyDocs : List (String × DocEntry) :=
  [("avatar", avatarDoc), ("memory", memoryDoc), ("tone", toneDoc),
   ("tools", toolsDoc), ("schedule", scheduleDoc),
   ("getting_started", gettingStartedDoc), ("architecture", architectureDoc),
   ("api", apiDoc), ("expertise", expertiseDoc),
   ("troubleshooting", troubleshootingDoc)]

/-- The per-entry score of `researchWeb`'s loop body (`server.ts` lines
236-250): `score += 10` when the lower-cased query contains the key,
`+= 5` when the lower-cased title contains the query, `+= 3` when the
lower-cased content contains the query, then for every whitespace token of
the query of length `> 2`, `+= 2` when the key contains it and `+= 1` when
the lower-cased content contains it. -/
def score (queryLower : String) (key : String) (doc : DocEntry) : Nat :=
  let s1 := if strIncludes queryLower key then 0 + 10 else 0
  let s2 := if strIncludes (strToLower doc.title) queryLower then s1 + 5 else s1
  let s3 := if strIncludes (strToLower doc.content) queryLower then s2 + 3 else s2
  let queryWords := splitWs queryLower
  queryWords.foldl (fun acc word =>
    if word.length > 2 then
      let acc1 := if strIncludes key word then acc + 2 else acc
      if strIncludes (strToLower doc.content) word then acc1 + 1 else acc1
    else acc) s3

/-- The `for (const [key, doc] of Object.entries(this.percifyDocs))` loop of
`researchWeb` (`server.ts` lines 235-256): tracks `bestMatch` and
`matchScore`, updating on strictly greater scores only. -/
def searchLoop (queryLower : String) :
    List (String × DocEntry) → Option DocEntry → Nat → Option DocEntry × Nat
  | [], best, ms => (best, ms)
  | kd :: rest, best, ms =>
    let s := score queryLower kd.1 kd.2
    if s > ms then searchLoop queryLower rest (some kd.2) s
    else searchLoop queryLower rest best ms

/-- The result record `{query, snippet, sourceUrl}` of `researchWeb`. -/
structure SearchResult where
  query : String
  snippet : String
  sourceUrl : String
deriving DecidableEq

/-- Assembles the returned record (`server.ts` lines 263-271):
`sourceUrl = baseUrl + path` and the snippet template embedding title and
content verbatim. -/
def mkResult (query : String) (doc : DocEntry) : SearchResult :=
  { query := query
    snippet := "📚 **" ++ doc.title ++ "** (docs.percify.io)\n\n" ++ doc.content
    sourceUrl := "https://docs.percify.io" ++ doc.path }

/-- `researchWeb(query)` (`server.ts` lines 225-272): lower-case the query,
run the scoring loop over the catalog, fall back to `getting_started` when
no match was recorded or the best score is below 2. -/
def researchWeb (query : String) : SearchResult :=
  let queryLower := strToLower query
  let bm := searchLoop queryLower percifyDocs none 0
  let best := match bm.1 with
    | some d => if bm.2 < 2 then gettingStartedDoc else d
    | none => gettingStartedDoc
  mkResult query best

/-- `researchWeb` at the agent level: the method reads no mutable agent
state and calls no `setState`, so the state passes through unchanged and
the result depends only on the query and the static catalog. -/
def researchWebAgent (s : AgentState) (query : String) : SearchResult × AgentState :=
  (researchWeb query, s)

/-! ## Context builder (`server.ts` lines 277-302) -/

/-- `buildContextString()`: renders the avatar block and the last 3 memories
(`slice(-3)`).  `fmtDate` stands for
`new Date(createdAt).toLocaleDateString()` (locale-dependent, external).
`avatar.bio || "Not set"` and the tag join follow the source. -/
def buildContextString (s : AgentState) (fmtDate : String → String) : String :=
  let avatar := s.avatar
  let recentMemories := s.memories.drop (s.memories.length - 3)
  let context0 := "## Current Avatar State\n"
  let context1 :=
    match avatar with
    | some a =>
      context0 ++ "- Name: " ++ a.displayName ++ "\n"
        ++ "- Bio: " ++ jsOrS (some a.bio) "Not set" ++ "\n"
        ++ "- Tone: " ++ toneStr a.tone ++ "\n"
        ++ "- Expertise: " ++ (if a.expertiseTags.length > 0 then String.intercalate ", " a.expertiseTags else "None specified") ++ "\n"
    | none => context0 ++ "- No avatar profile set yet. The user can create one.\n"
  let context2 := context1 ++ "\n## Recent Memories\n"
  if recentMemories.length > 0 then
    recentMemories.foldl (fun ctx mem =>
      ctx ++ "- [" ++ memTypeStr mem.type ++ "] " ++ mem.content ++ " (" ++ fmtDate mem.createdAt ++ ")\n") context2
  else
    context2 ++ "- No memories stored yet.\n"

/-! ## System prompt (`server.ts` lines 307-353) -/

/-- The tone directive table `toneInstructions` (`server.ts` lines 309-314). -/
def toneInstructions : Tone → String
  | .casual => "Be friendly, relaxed, and approachable. Use conversational language."
  | .professional => "Be formal, precise, and business-like. Maintain a professional demeanor."
  | .playful => "Be fun, energetic, and use humor when appropriate. Keep things light."
  | .technical => "Be detailed, accurate, and use technical terminology. Focus on precision."

/-- `this.state.avatar?.tone || "casual"` (`server.ts` line 308); the tone
literals are non-empty strings, so `||` is an `undefined`-check. -/
def stateTone (s : AgentState) : Tone :=
  match s.avatar with
  | some a => a.tone
  | none => Tone.casual

/-- The fixed text of the system-prompt template up to the interpolation
`Maintain the avatar\x27s tone (${tone})` (`server.ts` lines 316-336). -/
def promptPartA : String :=
  "You are Percify Avatar Co-Pilot, a friendly AI assistant that remembers each user\x27s persona and preferences.\n\n## IMPORTANT: Be Helpful and Conversational\n- ALWAYS respond helpfully to ANY message, even simple greetings like \"hey\" or \"hello\"\n- For greetings, introduce yourself warmly and explain what you can do\n- NEVER ask for \"more details\" unless absolutely necessary - be proactive and helpful\n- If unsure what the user wants, offer suggestions instead of asking for clarification\n\n## Your Capabilities\n1. **Avatar Setup**: Help users create their AI persona (name, bio, tone, expertise)\n2. **Memory**: Remember preferences, tasks, and notes for the user\n3. **Research**: Look up information from docs.percify.io (official Percify documentation)\n4. **Chat**: Have friendly conversations\n\n## How to Respond\n- For \"hey\", \"hello\", \"hi\": Greet warmly and introduce your capabilities\n- For \"create avatar\", \"set up avatar\", etc.: Use the saveAvatarProfile tool to help them create one\n- For \"remember X\", \"note that X\": Use the saveMemory tool\n- For \"research X\", \"look up X\", \"what is percify\", \"how does X work\": Use the researchWeb tool to search docs.percify.io\n- For questions about Percify features: ALWAYS use researchWeb to fetch from docs.percify.io\n- Maintain the avatar\x27s tone ("

/-- The fixed text of the system-prompt template between the tone directive
and the schedule-prompt interpolation (`server.ts` lines 336-350). -/
def promptPartC : String :=
  "\n\n## Example Responses\n- User: \"hey\" → \"Hey there! 👋 I\x27m Percify, your AI co-pilot! I can help you create a personalized avatar, remember your preferences, and look up our docs. Want to set up your avatar? Just tell me your name and what kind of tone you prefer (casual, professional, playful, or technical)!\"\n- User: \"create an avatar\" → Use saveAvatarProfile tool with a friendly default, then confirm\n- User: \"I prefer TypeScript\" → Use saveMemory tool with type \"preference\"\n- User: \"what is percify\" → Use researchWeb tool to fetch from docs.percify.io\n- User: \"how do memories work\" → Use researchWeb tool with query \"memory\"\n\n## Tools Available\n- saveAvatarProfile: Set name, bio, tone (casual/professional/playful/technical), expertiseTags\n- saveMemory: Store preferences, tasks, or notes  \n- researchWeb: Search docs.percify.io for documentation on Percify features\n\n"

/-- `getSystemPrompt()`: the template literal of `server.ts` lines 316-352,
with `schedulePromptText` standing for the external
`getSchedulePrompt({date: new Date()})` fragment. -/
def getSystemPrompt (s : AgentState) (schedulePromptText : String) (fmtDate : String → String) : String :=
  let tone := stateTone s
  promptPartA ++ toneStr tone ++ "): " ++ toneInstructions tone
    ++ promptPartC ++ schedulePromptText ++ "\n\n" ++ buildContextString s fmtDate

/-- Prompt assembly at the agent level: `getSystemPrompt` reads the state
and calls no `setState`, so the state passes through unchanged. -/
def getSystemPromptAgent (s : AgentState) (schedulePromptText : String)
    (fmtDate : String → String) : String × AgentState :=
  (getSystemPrompt s schedulePromptText fmtDate, s)

/-! ## Worker fetch router (`server.ts` lines 435-467) -/

/-- Responses the worker entry point can produce: the provider-status JSON
of `/check-open-ai-key`, the message JSON of `/api/avatar-state`, or
delegation to `routeAgentRequest` (external; includes its 404 fallback). -/
inductive WorkerResponse where
  | providerStatus (success : Bool) (provider : String)
  | jsonMessage (text : String)
  | routed
deriving DecidableEq

/-- The `fetch` routing of the worker entry point (`server.ts` lines
436-466), keyed on `url.pathname`.  Note the `/api/avatar-state` branch:
it returns a fixed message object, not the agent state. -/
def workerFetch (path : String) : WorkerResponse :=
  if path = "/check-open-ai-key" then .providerStatus true "workers-ai"
  else if path = "/api/avatar-state" then
    .jsonMessage "Use WebSocket connection to access avatar state"
  else .routed

/-! ## Step orchestrator (spec §4.6)

Modelled from the spec: the bounded generate→execute loop itself lives in
the external ai-SDK `streamText` call and is not part of `src/`; the code
contributes only the configuration `stopWhen: stepCountIs(10)`
(`server.ts` line 392), from which the cap below is taken.  Per §4.6 the
collaborator is invoked at most once per step; each invocation yields
either a final text or a tool-call request with a partial draft; reaching
the cap while tool calls are still produced terminates the turn with no
further tool execution, surfacing the last draft as the final output. -/

/-- One inference-collaborator response: a final text, or a tool-call
request together with the partial output produced so far. -/
inductive StepOut where
  | finalText (t : String)
  | toolRequest (draft : String) (call : String)

/-- Outcome of one conversational turn: how many model invocations and
tool executions happened, the surfaced output, and whether it was a
completed answer (`true`) or a step-cap partial (`false`). -/
structure TurnResult where
  invocations : Nat
  toolExecutions : Nat
  output : String
  complete : Bool
deriving DecidableEq

/-- The step cap: `stopWhen: stepCountIs(10)` (`server.ts` line 392). -/
def maxTurnSteps : Nat := 10

/-- Modelled from the spec: the §4.6 state machine.  `collab i` is the
inference collaborator's response to the `i`-th invocation.  With one
step of budget left, a tool-call response terminates the turn without
executing the tool. -/
def runLoop (collab : Nat → StepOut) : Nat → Nat → Nat → TurnResult
  | 0, inv, ex => { invocations := inv, toolExecutions := ex, output := "", complete := false }
  | n + 1, inv, ex =>
    match collab inv with
    | .finalText t => { invocations := inv + 1, toolExecutions := ex, output := t, complete := true }
    | .toolRequest draft _ =>
      match n with
      | 0 => { invocations := inv + 1, toolExecutions := ex, output := draft, complete := false }
      | m + 1 => runLoop collab (m + 1) (inv + 1) (ex + 1)

/-- One conversational turn: run the loop with the full step budget. -/
def runTurn (collab : Nat → StepOut) : TurnResult :=
  runLoop collab maxTurnSteps 0 0

/-! ## Message sanitizer (spec §4.3)

Modelled from the spec: `cleanupMessages` is imported from `./utils`,
which is not included in `src/` (only its call site at `server.ts` line
374 is).  Per §4.3 it removes any trailing tool-invocation record that
has no matching result, never reordering or dropping a fully-resolved
message. -/

/-- A history entry: a fully-resolved message, or a tool invocation whose
result is still missing. -/
inductive ChatMsg where
  | resolved (role : String) (content : String)
  | pendingCall (id : String)
deriving DecidableEq

/-- Is this entry an unresolved tool invocation? -/
def isPendingCall : ChatMsg → Bool
  | .pendingCall _ => true
  | .resolved _ _ => false

/-- Modelled from the spec: `sanitize(history)` strips the maximal trailing
run of unresolved tool invocations. -/
def cleanupMessages (h : List ChatMsg) : List ChatMsg :=
  (h.reverse.dropWhile isPendingCall).reverse

/-! ## Claim-side (specification) definitions for the matcher

These follow the specification's wording, to be compared with the
source-derived `score`/`searchLoop`/`researchWeb`. -/

/-- Spec wording: "for each whitespace-split token of the query of length
> 2, +2 if the key contains the token and +1 if the content contains the
token". -/
def claimTokenContribution (key contentLower : String) (w : String) : Nat :=
  if w.length > 2 then
    (if strIncludes key w then 2 else 0) + (if strIncludes contentLower w then 1 else 0)
  else 0

/-- Spec wording of the per-entry score: "+10 if the lower-cased query
contains the entry's key as a substring, +5 if the entry's lower-cased
title contains the full query, +3 if the entry's lower-cased content
contains the full query", plus the per-token contributions. -/
def claimScore (query : String) (key : String) (doc : DocEntry) : Nat :=
  let q := strToLower query
  (if strIncludes q key then 10 else 0)
    + (if strIncludes (strToLower doc.title) q then 5 else 0)
    + (if strIncludes (strToLower doc.content) q then 3 else 0)
    + ((splitWs q).map (claimTokenContribution key (strToLower doc.content))).sum

/-- The maximum entry score over a catalog fragment (0 for the empty one). -/
def pureMax (queryLower : String) (l : List (String × DocEntry)) : Nat :=
  (l.map (fun kd => score queryLower kd.1 kd.2)).foldr max 0

/-- Spec wording of the winner: "the first entry to reach the maximum
score in catalog iteration order". -/
def firstBest (queryLower : String) (l : List (String × DocEntry)) : Option DocEntry :=
  (l.find? (fun kd => score queryLower kd.1 kd.2 == pureMax queryLower l)).map (fun kd => kd.2)

/-- The selection rule as the specification words it: if no entry scores
at least 2 the fixed "getting started" entry is returned, otherwise the
first entry in catalog order attaining the maximum score. -/
def specSearch (q : String) : SearchResult :=
  let ql := strToLower q
  if pureMax ql percifyDocs < 2 then mkResult q gettingStartedDoc
  else
    match firstBest ql percifyDocs with
    | some d => mkResult q d
    | none => mkResult q gettingStartedDoc

/-! ## Claim-side (specification) definitions for the context block -/

/-- Spec wording of the avatar block: name, bio, tone and expertise tags,
with explicit placeholder text when absent ("Not set", "None specified",
or the no-avatar line). -/
def avatarBlock (s : AgentState) : String :=
  "## Current Avatar State\n" ++
    match s.avatar with
    | some a =>
      "- Name: " ++ a.displayName ++ "\n" ++
      "- Bio: " ++ (if a.bio = "" then "Not set" else a.bio) ++ "\n" ++
      "- Tone: " ++ toneStr a.tone ++ "\n" ++
      "- Expertise: " ++ (if a.expertiseTags.length > 0 then String.intercalate ", " a.expertiseTags else "None specified") ++ "\n"
    | none => "- No avatar profile set yet. The user can create one.\n"

/-- Spec wording of one memory line: its type and a human-readable date. -/
def renderedMemoryLine (fmtDate : String → String) (mem : MemoryItem) : String :=
  "- [" ++ memTypeStr mem.type ++ "] " ++ mem.content ++ " (" ++ fmtDate mem.createdAt ++ ")\n"

/-- Spec wording of the memories block: exactly the three most recent
memories, each rendered with type and date, or a "no memories stored yet"
line when there are none. -/
def memoriesBlock (s : AgentState) (fmtDate : String → String) : String :=
  "\n## Recent Memories\n" ++
    (if s.memories = [] then "- No memories stored yet.\n"
     else String.join ((s.memories.drop (s.memories.length - 3)).map (renderedMemoryLine fmtDate)))

/-! ## Theorems -/

/-- Helper: `String.join` distributes over cons. -/
theorem strJoin_cons (a : String) (l : List String) :
    String.join (a :: l) = a ++ String.join l := by
  apply String.ext
  simp [String.join_eq]

/-- Helper: the memory-rendering fold of `buildContextString` equals the
initial value followed by the joined rendered lines. -/
theorem foldl_render_eq_join (fmtDate : String → String) :
    ∀ (l : List MemoryItem) (init : String),
      l.foldl (fun ctx mem =>
          ctx ++ "- [" ++ memTypeStr mem.type ++ "] " ++ mem.content ++ " (" ++ fmtDate mem.createdAt ++ ")\n") init
        = init ++ String.join (l.map (renderedMemoryLine fmtDate)) := by
  intro l
  induction l with
  | nil => intro init; simp [String.join]
  | cons a as ih =>
    intro init
    simp only [List.foldl_cons, List.map_cons]
    rw [ih, strJoin_cons]
    apply String.ext
    simp [renderedMemoryLine, String.data_append, List.append_assoc]

/-- Helper: one step of the token loop adds exactly the claim's
per-token contribution. -/
theorem token_step_eq (key contentLower w : String) (acc : Nat) :
    (if w.length > 2 then
      (let acc1 := if strIncludes key w then acc + 2 else acc
       if strIncludes contentLower w then acc1 + 1 else acc1)
     else acc) = acc + claimTokenContribution key contentLower w := by
  unfold claimTokenContribution
  by_cases h1 : w.length > 2 <;>
    by_cases h2 : strIncludes key w = true <;>
    by_cases h3 : strIncludes contentLower w = true <;>
    simp [h1, h2, h3]

/-- Helper: the token loop computes the accumulator plus the sum of the
claim's per-token contributions. -/
theorem token_fold_eq (key contentLower : String) :
    ∀ (l : List String) (acc : Nat),
      l.foldl (fun acc word =>
        if word.length > 2 then
          (let acc1 := if strIncludes key word then acc + 2 else acc
           if strIncludes contentLower word then acc1 + 1 else acc1)
        else acc) acc
      = acc + (l.map (claimTokenContribution key contentLower)).sum := by
  intro l
  induction l with
  | nil => intro acc; simp
  | cons w ws ih =>
    intro acc
    simp only [List.foldl_cons, List.map_cons, List.sum_cons]
    rw [token_step_eq key contentLower w acc, ih]
    omega

/-- Helper: the source's sequentially accumulated score equals the claim's
sum-of-indicators score. -/
theorem score_eq_claimScore (q k : String) (d : DocEntry) :
    score (strToLower q) k d = claimScore q k d := by
  unfold score claimScore
  rw [token_fold_eq]
  by_cases c1 : strIncludes (strToLower q) k = true <;>
    by_cases c2 : strIncludes (strToLower d.title) (strToLower q) = true <;>
    by_cases c3 : strIncludes (strToLower d.content) (strToLower q) = true <;>
    simp [c1, c2, c3]

/-- Helper: the final `matchScore` of the loop is the maximum of the
running score and every entry score seen. -/
theorem searchLoop_snd (ql : String) :
    ∀ (l : List (String × DocEntry)) (b : Option DocEntry) (m : Nat),
      (searchLoop ql l b m).2 = max m (pureMax ql l) := by
  intro l
  induction l with
  | nil => intro b m; simp [searchLoop, pureMax]
  | cons kd rest ih =>
    intro b m
    have hpm : pureMax ql (kd :: rest) = max (score ql kd.1 kd.2) (pureMax ql rest) := by
      simp [pureMax]
    simp only [searchLoop]
    split
    · next hgt => rw [ih]; omega
    · next hle => rw [ih]; omega

/-- Helper: when the head entry attains the overall maximum, it is the
first best entry. -/
theorem firstBest_cons_pos (ql : String) (kd : String × DocEntry)
    (rest : List (String × DocEntry))
    (h : score ql kd.1 kd.2 = pureMax ql (kd :: rest)) :
    firstBest ql (kd :: rest) = some kd.2 := by
  unfold firstBest
  rw [List.find?_cons, h, beq_self_eq_true]
  rfl

/-- Helper: when the head entry does not attain the overall maximum, the
first best entry is found in the tail (whose maximum is then the overall
one). -/
theorem firstBest_cons_neg (ql : String) (kd : String × DocEntry)
    (rest : List (String × DocEntry))
    (h1 : ¬ score ql kd.1 kd.2 = pureMax ql (kd :: rest))
    (h2 : pureMax ql (kd :: rest) = pureMax ql rest) :
    firstBest ql (kd :: rest) = firstBest ql rest := by
  unfold firstBest
  rw [List.find?_cons]
  have hfalse : (score ql kd.1 kd.2 == pureMax ql (kd :: rest)) = false := by
    rw [beq_eq_false_iff_ne]
    exact h1
  rw [hfalse, h2]

/-- Helper: the final `bestMatch` of the loop is unchanged when no entry
beats the running score, and otherwise is the first entry attaining the
overall maximum. -/
theorem searchLoop_fst (ql : String) :
    ∀ (l : List (String × DocEntry)) (b : Option DocEntry) (m : Nat),
      (searchLoop ql l b m).1 = if pureMax ql l ≤ m then b else firstBest ql l := by
  intro l
  induction l with
  | nil => intro b m; simp [searchLoop, pureMax, firstBest]
  | cons kd rest ih =>
    intro b m
    have hpm : pureMax ql (kd :: rest) = max (score ql kd.1 kd.2) (pureMax ql rest) := by
      simp [pureMax]
    simp only [searchLoop]
    split
    · next hgt =>
      rw [ih]
      have hnot : ¬ pureMax ql (kd :: rest) ≤ m := by omega
      rw [if_neg hnot]
      by_cases hPs : pureMax ql rest ≤ score ql kd.1 kd.2
      · have hmax : score ql kd.1 kd.2 = pureMax ql (kd :: rest) := by omega
        rw [if_pos hPs, firstBest_cons_pos ql kd rest hmax]
      · have hmax : pureMax ql (kd :: rest) = pureMax ql rest := by omega
        have hne : ¬ score ql kd.1 kd.2 = pureMax ql (kd :: rest) := by omega
        rw [if_neg hPs, firstBest_cons_neg ql kd rest hne hmax]
    · next hle =>
      rw [ih]
      by_cases hPm : pureMax ql rest ≤ m
      · have h1 : pureMax ql (kd :: rest) ≤ m := by omega
        rw [if_pos hPm, if_pos h1]
      · have h1 : ¬ pureMax ql (kd :: rest) ≤ m := by omega
        have hmax : pureMax ql (kd :: rest) = pureMax ql rest := by omega
        have hne : ¬ score ql kd.1 kd.2 = pureMax ql (kd :: rest) := by omega
        rw [if_neg hPm, if_neg h1, firstBest_cons_neg ql kd rest hne hmax]

/-- Helper: `researchWeb` implements the specification's selection rule. -/
theorem researchWeb_eq_specSearch (q : String) : researchWeb q = specSearch q := by
  simp only [researchWeb, specSearch]
  rw [searchLoop_fst, searchLoop_snd]
  by_cases hm : pureMax (strToLower q) percifyDocs < 2
  · rw [if_pos hm]
    by_cases h0 : pureMax (strToLower q) percifyDocs ≤ 0
    · rw [if_pos h0]
    · rw [if_neg h0]
      cases hfb : firstBest (strToLower q) percifyDocs with
      | none => rfl
      | some d =>
        dsimp only
        rw [Nat.zero_max, if_pos hm]
  · rw [if_neg hm]
    have h0 : ¬ pureMax (strToLower q) percifyDocs ≤ 0 := by omega
    rw [if_neg h0]
    cases hfb : firstBest (strToLower q) percifyDocs with
    | none => rfl
    | some d =>
      dsimp only
      rw [Nat.zero_max, if_neg hm]

/-- Helper: a single `saveMemory` always leaves at most 50 memories,
from any starting state. -/
theorem saveMemory_len_le (s : AgentState) (i t : String) (ty : MemoryType) (c : String) :
    (saveMemory s i t ty c).2.memories.length ≤ 50 := by
  simp only [saveMemory]
  split
  · simp only [List.length_drop]
    omega
  · next h =>
    simp only [Nat.not_lt] at h
    omega

/-- Helper: folding further `saveMemory` calls over any state keeps the cap. -/
theorem foldl_saveMemory_len_le (calls : List (String × String × MemoryType × String)) :
    ∀ st : AgentState, st.memories.length ≤ 50 →
      ((calls.foldl (fun st c => (saveMemory st c.1 c.2.1 c.2.2.1 c.2.2.2).2) st).memories.length ≤ 50) := by
  induction calls with
  | nil => intro st h; exact h
  | cons c cs ih =>
    intro st _
    exact ih _ (saveMemory_len_le st c.1 c.2.1 c.2.2.1 c.2.2.2)

/-- C1: after every `saveMemory` call the memory list has length at most 50;
the surviving items are exactly the most recent ones — the old list with the
new item appended last and the prefix of oldest items evicted (FIFO), order
preserved; the call returns the 5 most recent items after eviction; the
avatar is untouched; and every further sequence of calls keeps the cap. -/
theorem c1_memory_cap (s : AgentState) (freshId createdAt : String)
    (ty : MemoryType) (content : String) :
    ((saveMemory s freshId createdAt ty content).2.memories.length ≤ 50) ∧
    ((saveMemory s freshId createdAt ty content).2.memories =
      (s.memories ++ [({ id := freshId, createdAt := createdAt, type := ty, content := content } : MemoryItem)]).drop
        (s.memories.length + 1 - 50)) ∧
    ((saveMemory s freshId createdAt ty content).1 =
      (saveMemory s freshId createdAt ty content).2.memories.drop
        ((saveMemory s freshId createdAt ty content).2.memories.length - 5)) ∧
    ((saveMemory s freshId createdAt ty content).2.avatar = s.avatar) ∧
    (∀ calls : List (String × String × MemoryType × String),
      ((calls.foldl (fun st c => (saveMemory st c.1 c.2.1 c.2.2.1 c.2.2.2).2)
        (saveMemory s freshId createdAt ty content).2).memories.length ≤ 50)) := by
  refine ⟨saveMemory_len_le s freshId createdAt ty content, ?_, rfl, rfl, ?_⟩
  · simp only [saveMemory]
    split
    · simp [List.length_append]
    · next hle =>
      simp only [Nat.not_lt, List.length_append, List.length_cons, List.length_nil] at hle
      have h0 : s.memories.length + 1 - 50 = 0 := by omega
      rw [h0, List.drop_zero]
  · intro calls
    exact foldl_saveMemory_len_le calls _ (saveMemory_len_le s freshId createdAt ty content)

/-- C2 counterexample: the claim "any field omitted in the update retains
its previous value / `saveAvatarProfile({})` leaves all existing fields
unchanged" fails for a prior avatar whose `displayName` is the empty
string: the JavaScript `||` chain treats it as falsy and replaces it with
the default `"Unnamed Avatar"`. -/
theorem c2_counterexample_profile :
    (saveAvatarProfile
        { avatar := some { id := "id1", displayName := "", bio := "b", tone := Tone.casual, expertiseTags := [] },
          memories := [] } {} "fresh").1.displayName = "Unnamed Avatar" ∧
    (saveAvatarProfile
        { avatar := some { id := "id1", displayName := "", bio := "b", tone := Tone.casual, expertiseTags := [] },
          memories := [] } {} "fresh").1 ≠
      { id := "id1", displayName := "", bio := "b", tone := Tone.casual, expertiseTags := [] } := by
  decide

/-- C2 (amended): `saveAvatarProfile` merges field-wise through JavaScript
`||`, so an omitted field retains its previous value whenever that value is
truthy: the `playful`-on-unset example holds; on first save (no avatar) the
id is the fresh one; with an existing avatar, a non-empty id is preserved,
an omitted non-empty `displayName` is retained, and omitted `bio`, `tone`,
`expertiseTags` are always retained (`bio`'s default equals the falsy value
`""`, `tone` and `expertiseTags` are always truthy); `saveAvatarProfile({})`
leaves the avatar unchanged when its id and displayName are non-empty; the
store replaces only the avatar. -/
theorem c2_profile_merge (s : AgentState) (a : AvatarProfile)
    (input : ProfileInput) (freshId : String) :
    ((saveAvatarProfile { avatar := none, memories := s.memories } { tone := some Tone.playful } freshId).1 =
      { id := freshId, displayName := "Unnamed Avatar", bio := "", tone := Tone.playful, expertiseTags := [] }) ∧
    (s.avatar = none → (saveAvatarProfile s input freshId).1.id = freshId) ∧
    (s.avatar = some a →
      ((a.id ≠ "" → (saveAvatarProfile s input freshId).1.id = a.id) ∧
       (input.displayName = none → a.displayName ≠ "" →
         (saveAvatarProfile s input freshId).1.displayName = a.displayName) ∧
       (input.bio = none → (saveAvatarProfile s input freshId).1.bio = a.bio) ∧
       (input.tone = none → (saveAvatarProfile s input freshId).1.tone = a.tone) ∧
       (input.expertiseTags = none → (saveAvatarProfile s input freshId).1.expertiseTags = a.expertiseTags) ∧
       (a.id ≠ "" → a.displayName ≠ "" → (saveAvatarProfile s {} freshId).1 = a))) ∧
    ((saveAvatarProfile s input freshId).2 =
      { avatar := some (saveAvatarProfile s input freshId).1, memories := s.memories }) := by
  refine ⟨rfl, ?_, ?_, rfl⟩
  · intro h
    simp [saveAvatarProfile, h, jsOrS]
  · intro h
    refine ⟨?_, ?_, ?_, ?_, ?_, ?_⟩
    · intro hid
      simp [saveAvatarProfile, h, jsOrS, hid]
    · intro hdn hdn2
      simp [saveAvatarProfile, h, hdn, jsOrS, hdn2]
    · intro hb
      by_cases hb0 : a.bio = "" <;> simp [saveAvatarProfile, h, hb, jsOrS, hb0]
    · intro ht
      simp [saveAvatarProfile, h, ht]
    · intro he
      simp [saveAvatarProfile, h, he]
    · intro hid hdn
      obtain ⟨aid, adn, abio, atone, atags⟩ := a
      simp only at hid hdn
      by_cases hb0 : abio = "" <;>
        simp [saveAvatarProfile, h, jsOrS, hid, hdn, hb0]

/-- C2 witness: applying the amended theorem at a concrete avatar with
non-empty id and displayName, the empty update leaves it unchanged. -/
theorem c2_profile_merge_witness :
    (saveAvatarProfile
        { avatar := some { id := "i1", displayName := "Nina", bio := "hi", tone := Tone.technical, expertiseTags := ["ts"] },
          memories := [] } {} "f2").1 =
      { id := "i1", displayName := "Nina", bio := "hi", tone := Tone.technical, expertiseTags := ["ts"] } := by
  have h := c2_profile_merge
    { avatar := some { id := "i1", displayName := "Nina", bio := "hi", tone := Tone.technical, expertiseTags := ["ts"] },
      memories := [] }
    { id := "i1", displayName := "Nina", bio := "hi", tone := Tone.technical, expertiseTags := ["ts"] }
    {} "f2"
  exact (h.2.2.1 rfl).2.2.2.2.2 (by decide) (by decide)

/-- C4 counterexample: with a corrupt `memories` slot but an avatar present,
`onStart` keeps the avatar (it spreads `...this.state` and resets only
`memories`), so the state is not reset to `{avatar: undefined, memories: []}`
as the claim states. -/
theorem c4_counterexample :
    onStart (.obj (some { id := "i", displayName := "N", bio := "", tone := Tone.casual, expertiseTags := [] }) .notArray) ≠
      ({ avatar := none, memories := [] } : CheckedState) := by
  decide

/-- C4 (amended): on initialization, a missing or non-object state slot is
reset to `{avatar: undefined, memories: []}`; when the slot is an object
whose `memories` is not an array, only `memories` is reset to `[]` and the
avatar is preserved; well-formed state is kept.  In particular the claim's
examples hold: `state = null` and an avatar-less object with corrupt
`memories` both yield `{avatar: undefined, memories: []}`. -/
theorem c4_self_heal (a : Option AvatarProfile) (ms : List MemoryItem) :
    onStart .nullish = { avatar := none, memories := [] } ∧
    onStart .nonObject = { avatar := none, memories := [] } ∧
    onStart (.obj a (.arr ms)) = { avatar := a, memories := ms } ∧
    onStart (.obj a .notArray) = { avatar := a, memories := [] } ∧
    onStart (.obj none .notArray) = { avatar := none, memories := [] } :=
  ⟨rfl, rfl, rfl, rfl, rfl⟩

/-- Helper: the step loop makes at most `fuel` further collaborator
invocations. -/
theorem runLoop_invocations_le (collab : Nat → StepOut) :
    ∀ (fuel inv ex : Nat), (runLoop collab fuel inv ex).invocations ≤ inv + fuel := by
  intro fuel
  induction fuel with
  | zero => intro inv ex; exact Nat.le_refl _
  | succ n ih =>
    intro inv ex
    unfold runLoop
    rcases hc : collab inv with t | ⟨d, c⟩
    · show inv + 1 ≤ inv + (n + 1)
      omega
    · cases n with
      | zero =>
        show inv + 1 ≤ inv + 1
        omega
      | succ m =>
        show (runLoop collab (m + 1) (inv + 1) (ex + 1)).invocations ≤ inv + (m + 1 + 1)
        have := ih (inv + 1) (ex + 1)
        omega

/-- C5: within one turn the orchestrator never invokes the inference
collaborator more than `maxTurnSteps = 10` times, for every collaborator;
and against a collaborator that returns a tool call on every step, exactly
10 invocations happen, the 10th tool call is not executed (9 executions),
and the last partial draft is surfaced as a non-complete final output. -/
theorem c5_step_cap :
    (∀ collab : Nat → StepOut, (runTurn collab).invocations ≤ maxTurnSteps) ∧
    (∀ drafts : Nat → String,
      runTurn (fun i => StepOut.toolRequest (drafts i) "call") =
        { invocations := 10, toolExecutions := 9, output := drafts 9, complete := false }) := by
  constructor
  · intro collab
    have h := runLoop_invocations_le collab maxTurnSteps 0 0
    unfold runTurn
    omega
  · intro drafts
    rfl

/-- C6: the `/api/avatar-state` endpoint of the worker entry point returns
a fixed placeholder message object, not the avatar state, contradicting the
claim (and the repository's own API documentation entry); the in-agent
reader `getAvatarState` does behave as claimed: avatar unchanged, memories
truncated to the last 5, no state mutation. -/
theorem c6_avatar_state_endpoint :
    workerFetch "/api/avatar-state" =
      WorkerResponse.jsonMessage "Use WebSocket connection to access avatar state" ∧
    (∀ s : AgentState,
      (getAvatarState s).1.avatar = s.avatar ∧
      (getAvatarState s).1.memories = s.memories.drop (s.memories.length - 5) ∧
      (getAvatarState s).2 = s) := by
  exact ⟨by decide, fun s => ⟨rfl, rfl, rfl⟩⟩

/-- C7: `researchWeb` at the agent level is a pure function of the query
and the static catalog: it leaves the agent state unchanged, its result
does not depend on the agent state (no hidden state), and a repeated call
on the state returned by the first call yields the identical result.  In
the embedding this holds definitionally because the method's body
(`server.ts` lines 225-272) reads and writes no mutable state. -/
theorem c7_matcher_pure (s s' : AgentState) (q : String) :
    (researchWebAgent s q).2 = s ∧
    (researchWebAgent s q).1 = (researchWebAgent s' q).1 ∧
    (researchWebAgent ((researchWebAgent s q).2) q).1 = (researchWebAgent s q).1 :=
  ⟨rfl, rfl, rfl⟩

/-- Helper: the context string decomposes into the spec-worded avatar block
followed by the spec-worded memories block. -/
theorem buildContextString_eq (s : AgentState) (fmtDate : String → String) :
    buildContextString s fmtDate = avatarBlock s ++ memoriesBlock s fmtDate := by
  unfold buildContextString avatarBlock memoriesBlock
  by_cases hm : s.memories = []
  · rw [hm]
    apply String.ext
    cases s.avatar <;>
      simp [jsOrS, String.data_append, List.append_assoc]
  · have hlen : 0 < s.memories.length := List.length_pos.mpr hm
    have hrec : 0 < (s.memories.drop (s.memories.length - 3)).length := by
      simp only [List.length_drop]
      omega
    rw [if_pos hrec, if_neg hm, foldl_render_eq_join]
    apply String.ext
    cases s.avatar <;>
      simp [jsOrS, String.data_append, List.append_assoc]

/-- C3: `researchWeb` computes, for every query, exactly the
specification's selection: per-entry scores as the claim's indicator sum
(`claimScore`), the winner chosen by strict greater-than in catalog order
(first entry attaining the maximum), and the "getting started" fallback
whenever no entry scores at least 2. -/
theorem c3_matcher_score_selection (q : String) :
    researchWeb q = specSearch q ∧
    ∀ (k : String) (d : DocEntry), score (strToLower q) k d = claimScore q k d :=
  ⟨researchWeb_eq_specSearch q, fun k d => score_eq_claimScore q k d⟩

/-- C8: the system prompt is a deterministic assembly from the state (the
read mutates nothing and re-reading yields the same string); the
tone-specific directive is selected by `state.avatar?.tone` with default
`casual`; and the prompt ends with the avatar block followed by the
memories block — exactly the three most recent memories rendered with
type and human-readable date, or the "no memories stored yet" line. -/
theorem c8_system_prompt (s : AgentState) (frag : String) (fmtDate : String → String) :
    ((getSystemPromptAgent s frag fmtDate).2 = s) ∧
    ((getSystemPromptAgent ((getSystemPromptAgent s frag fmtDate).2) frag fmtDate).1 =
      (getSystemPromptAgent s frag fmtDate).1) ∧
    (getSystemPrompt s frag fmtDate =
      promptPartA ++ toneStr (stateTone s) ++ "): " ++ toneInstructions (stateTone s)
        ++ promptPartC ++ frag ++ "\n\n" ++ (avatarBlock s ++ memoriesBlock s fmtDate)) ∧
    (buildContextString s fmtDate = avatarBlock s ++ memoriesBlock s fmtDate) := by
  refine ⟨rfl, rfl, ?_, buildContextString_eq s fmtDate⟩
  unfold getSystemPrompt
  rw [buildContextString_eq]

/-- C10: on the empty query every catalog entry scores exactly 8 (the +5
title and +3 content containments hold vacuously, the key containment and
the token loop contribute nothing), so the first catalog entry — the
Avatar Setup Guide — wins under the strict greater-than earliest-wins
rule, its source URL ends with `/docs/avatar-guide`, and the result is not
the "getting started" fallback. -/
theorem c10_empty_query :
    researchWeb "" = mkResult "" avatarDoc ∧
    (percifyDocs.all fun kd => score "" kd.1 kd.2 == 8) = true ∧
    (researchWeb "").sourceUrl = "https://docs.percify.io/docs/avatar-guide" ∧
    researchWeb "" ≠ mkResult "" gettingStartedDoc := by
  refine ⟨rfl, rfl, rfl, ?_⟩
  decide

/-- C9: the sanitizer is idempotent, and it neither reorders nor drops any
fully-resolved message: the sanitized history is a prefix of the input
whose dropped suffix consists of unresolved tool invocations only, so the
subsequence of fully-resolved messages is untouched. -/
theorem c9_sanitize_idempotent (h : List ChatMsg) :
    cleanupMessages (cleanupMessages h) = cleanupMessages h ∧
    (cleanupMessages h ++ (h.reverse.takeWhile isPendingCall).reverse = h) ∧
    (∀ m ∈ (h.reverse.takeWhile isPendingCall).reverse, isPendingCall m = true) ∧
    (cleanupMessages h).filter (fun m => !isPendingCall m) =
      h.filter (fun m => !isPendingCall m) := by
  have hdecomp : cleanupMessages h ++ (h.reverse.takeWhile isPendingCall).reverse = h := by
    simp only [cleanupMessages]
    rw [← List.reverse_append, List.takeWhile_append_dropWhile, List.reverse_reverse]
  have hmem : ∀ m ∈ (h.reverse.takeWhile isPendingCall).reverse, isPendingCall m = true := by
    intro m hm
    rw [List.mem_reverse] at hm
    exact List.mem_takeWhile_imp hm
  refine ⟨?_, hdecomp, hmem, ?_⟩
  · simp only [cleanupMessages, List.reverse_reverse]
    rw [List.dropWhile_idempotent]
  · conv_rhs => rw [← hdecomp]
    rw [List.filter_append]
    have : ((h.reverse.takeWhile isPendingCall).reverse).filter (fun m => !isPendingCall m) = [] := by
      rw [List.filter_eq_nil_iff]
      intro m hm
      simp [hmem m hm]
    rw [this, List.append_nil]

/-- C9 witness: on a concrete history ending in an unresolved call, the
sanitizer is idempotent and the dropped entry is indeed a pending call. -/
theorem c9_sanitize_witness :
    cleanupMessages (cleanupMessages [ChatMsg.resolved "user" "hi", ChatMsg.pendingCall "t1"]) =
      cleanupMessages [ChatMsg.resolved "user" "hi", ChatMsg.pendingCall "t1"] ∧
    isPendingCall (ChatMsg.pendingCall "t1") = true := by
  have h := c9_sanitize_idempotent [ChatMsg.resolved "user" "hi", ChatMsg.pendingCall "t1"]
  exact ⟨h.1, h.2.2.1 (ChatMsg.pendingCall "t1") (by decide)⟩

end Percify
